import Mathlib

/-!
Shallow embedding of the MRV-Evo-Backend record service (src/main.py).

The service exposes CRUD endpoints over six SQL tables: Items,
MRVMasterProducts, ProductDescription, UoM, ProductCategory, ProductTypes.
We model the database as lists of rows (one list per table) plus the
autoincrement counters of the two identity columns, and each endpoint
handler as a pure function from a database state (and the request payload)
to an `Except`-result carrying the new state and the returned record.
`HTTPException(status_code, detail)` is modelled by `ApiError`.

SQL `Float` columns (`PRODUCT_FAT_CONTENT`, `CONVERSION_OUNCES`) are only
stored and echoed back, never computed with, so they are modelled by `Rat`.
-/

namespace MRVEvo

/-- Float-valued columns: stored and returned verbatim, no arithmetic. -/
abbrev FloatVal := Rat

/-- A row of the `Items` table (`Id`, `Name`, `Description`, `Category`). -/
structure ItemRow where
  id : Int
  name : String
  description : Option String
  category : Option String
deriving DecidableEq

/-- A row of the `MRVMasterProducts` table. -/
structure MasterProductRow where
  id : Int
  mrvProductNumber : Int
  prodTypKey : Option Int
  prodDescKey : Int
  prodCatKey : Int
  productFmmoClassification : Option Int
  productFatContent : Option FloatVal
  uomKey : Option Int
  conversionOunces : Option FloatVal
  mrvType : Option Int
deriving DecidableEq

/-- A row of one of the four lookup tables (`Id` plus one text column). -/
structure LookupRow where
  id : Int
  text : String
deriving DecidableEq

/-- The database state: one list of rows per table, plus the next value of
each autoincremented identity column (`Items.Id`, `MRVMasterProducts.Id`). -/
structure DB where
  items : List ItemRow
  masterProducts : List MasterProductRow
  productDescriptions : List LookupRow
  uoms : List LookupRow
  productCategories : List LookupRow
  productTypes : List LookupRow
  nextItemId : Int
  nextProductId : Int
deriving DecidableEq

/-- `HTTPException(status_code=..., detail=...)`. -/
structure ApiError where
  status : Int
  detail : String
deriving DecidableEq

/-- `SELECT ... WHERE Id = i ... fetchone()` on a lookup table. -/
def lookupFind (t : List LookupRow) (i : Int) : Option LookupRow :=
  t.find? (fun r => r.id == i)

/-- `SELECT ... WHERE Id = i ... fetchone()` on `Items`. -/
def findItem (s : DB) (i : Int) : Option ItemRow :=
  s.items.find? (fun r => r.id == i)

/-- `SELECT ... WHERE Id = i ... fetchone()` on `MRVMasterProducts`. -/
def findProduct (s : DB) (i : Int) : Option MasterProductRow :=
  s.masterProducts.find? (fun r => r.id == i)

/-- Pydantic payload `Item` (`name` has `min_length=1`; the optional `id`
is ignored by the handlers, the column is autoincremented). -/
structure Item where
  id : Option Int
  name : String
  description : Option String
  category : Option String
deriving DecidableEq

/-- Pydantic field validation for `Item`: `name: str = Field(..., min_length=1)`. -/
def Item.valid (p : Item) : Bool :=
  p.name.length ≥ 1

/-- Pydantic payload `MRVMasterProducts`. -/
structure MRVMasterProducts where
  id : Option Int
  mrv_product_number : Int
  prod_typ_key : Option Int
  prod_desc_key : Int
  prod_cat_key : Int
  product_fmmoclassification : Option Int
  product_fat_content : Option FloatVal
  uom_key : Option Int
  conversion_ounces : Option FloatVal
  mrv_type : Option Int
deriving DecidableEq

/-- Pydantic field validation for `MRVMasterProducts`:
`mrv_product_number >= 0`, `prod_desc_key >= 1`, `prod_cat_key >= 1`. -/
def MRVMasterProducts.valid (p : MRVMasterProducts) : Bool :=
  p.mrv_product_number ≥ 0 && p.prod_desc_key ≥ 1 && p.prod_cat_key ≥ 1

/-- Pydantic payload `ProductDescription` (`id >= 0`, nonempty text). -/
structure ProductDescription where
  id : Int
  product_description : String
deriving DecidableEq

/-- Pydantic field validation for `ProductDescription`. -/
def ProductDescription.valid (d : ProductDescription) : Bool :=
  d.id ≥ 0 && d.product_description.length ≥ 1

/-- Python truthiness of an `Optional[int]`: `None` and `0` are falsy. -/
def optTruthy : Option Int → Bool
  | none => false
  | some n => n != 0

/-- `if <optional key> and not session.execute(select ...).fetchone()`:
the guard under which the foreign-key check of an optional key fails. -/
def optFkBad (t : List LookupRow) : Option Int → Bool
  | none => false
  | some n => n != 0 && (lookupFind t n).isNone

/-- The same guard for a required (non-optional) integer key: Python
truthiness still skips the lookup when the value is `0`. -/
def intFkBad (t : List LookupRow) (n : Int) : Bool :=
  n != 0 && (lookupFind t n).isNone

/-- The foreign-key validation block of `create_mrv_master_product`
(src/main.py lines 263-278): four sequential existence checks, the first
failing one raising `HTTPException(400, ...)`. -/
def fkCheckCreate (s : DB) (p : MRVMasterProducts) : Option ApiError :=
  if intFkBad s.productDescriptions p.prod_desc_key then
    some ⟨400, "Invalid ProductDescription ID"⟩
  else if intFkBad s.productCategories p.prod_cat_key then
    some ⟨400, "Invalid ProductCategory ID"⟩
  else if optFkBad s.productTypes p.prod_typ_key then
    some ⟨400, "Invalid ProductTypes ID"⟩
  else if optFkBad s.uoms p.uom_key then
    some ⟨400, "Invalid UoM ID"⟩
  else
    none

/-- The foreign-key validation block of `update_mrv_master_product`
(src/main.py lines 325-340), kept as its own definition so that its
agreement with the create-path block is a theorem, not a definition. -/
def fkCheckUpdate (s : DB) (p : MRVMasterProducts) : Option ApiError :=
  if intFkBad s.productDescriptions p.prod_desc_key then
    some ⟨400, "Invalid ProductDescription ID"⟩
  else if intFkBad s.productCategories p.prod_cat_key then
    some ⟨400, "Invalid ProductCategory ID"⟩
  else if optFkBad s.productTypes p.prod_typ_key then
    some ⟨400, "Invalid ProductTypes ID"⟩
  else if optFkBad s.uoms p.uom_key then
    some ⟨400, "Invalid UoM ID"⟩
  else
    none

/-- `POST /items/` (`create_item`): insert with autoincremented `Id`,
then re-read the row by that id and return it. The `none` branch of the
re-read mirrors the crash (HTTP 500) that a vanished row would cause. -/
def create_item (s : DB) (p : Item) : Except ApiError (DB × ItemRow) :=
  let row : ItemRow :=
    { id := s.nextItemId
      name := p.name
      description := p.description
      category := p.category }
  let s' : DB := { s with items := s.items ++ [row], nextItemId := s.nextItemId + 1 }
  match findItem s' s.nextItemId with
  | some r => .ok (s', r)
  | none => .error ⟨500, "Internal Server Error"⟩

/-- `GET /items/` (`get_items`): all rows. -/
def get_items (s : DB) : List ItemRow :=
  s.items

/-- `GET /items/{item_id}` (`get_item`): one row or 404. -/
def get_item (s : DB) (item_id : Int) : Except ApiError ItemRow :=
  match findItem s item_id with
  | none => .error ⟨404, "Item not found"⟩
  | some r => .ok r

/-- `PUT /items/{item_id}` (`update_item`): 404 if absent, else overwrite
`Name`, `Description`, `Category` of the rows with that id and re-read. -/
def update_item (s : DB) (item_id : Int) (p : Item) : Except ApiError (DB × ItemRow) :=
  match findItem s item_id with
  | none => .error ⟨404, "Item not found"⟩
  | some _ =>
    let s' : DB :=
      { s with items := s.items.map (fun r =>
          if r.id == item_id then
            { r with name := p.name, description := p.description, category := p.category }
          else r) }
    match findItem s' item_id with
    | some r => .ok (s', r)
    | none => .error ⟨500, "Internal Server Error"⟩

/-- `DELETE /items/{item_id}` (`delete_item`): 404 if absent, else delete. -/
def delete_item (s : DB) (item_id : Int) : Except ApiError (DB × String) :=
  match findItem s item_id with
  | none => .error ⟨404, "Item not found"⟩
  | some _ =>
    .ok ({ s with items := s.items.filter (fun r => !(r.id == item_id)) }, "Item deleted")

/-- `POST /mrv-master-products/` (`create_mrv_master_product`): validate
all foreign keys, then insert with autoincremented `Id` and re-read. -/
def create_mrv_master_product (s : DB) (p : MRVMasterProducts) :
    Except ApiError (DB × MasterProductRow) :=
  match fkCheckCreate s p with
  | some e => .error e
  | none =>
    let row : MasterProductRow :=
      { id := s.nextProductId
        mrvProductNumber := p.mrv_product_number
        prodTypKey := p.prod_typ_key
        prodDescKey := p.prod_desc_key
        prodCatKey := p.prod_cat_key
        productFmmoClassification := p.product_fmmoclassification
        productFatContent := p.product_fat_content
        uomKey := p.uom_key
        conversionOunces := p.conversion_ounces
        mrvType := p.mrv_type }
    let s' : DB :=
      { s with masterProducts := s.masterProducts ++ [row],
               nextProductId := s.nextProductId + 1 }
    match findProduct s' s.nextProductId with
    | some r => .ok (s', r)
    | none => .error ⟨500, "Internal Server Error"⟩

/-- `GET /mrv-master-products/` (`get_mrv_master_products`): all rows. -/
def get_mrv_master_products (s : DB) : List MasterProductRow :=
  s.masterProducts

/-- `GET /mrv-master-products/{id}` (`get_mrv_master_product`). -/
def get_mrv_master_product (s : DB) (i : Int) : Except ApiError MasterProductRow :=
  match findProduct s i with
  | none => .error ⟨404, "Product not found"⟩
  | some r => .ok r

/-- `PUT /mrv-master-products/{id}` (`update_mrv_master_product`):
404 if absent, then the same foreign-key checks as create, then overwrite
every mutable column of the rows with that id and re-read. -/
def update_mrv_master_product (s : DB) (i : Int) (p : MRVMasterProducts) :
    Except ApiError (DB × MasterProductRow) :=
  match findProduct s i with
  | none => .error ⟨404, "Product not found"⟩
  | some _ =>
    match fkCheckUpdate s p with
    | some e => .error e
    | none =>
      let s' : DB :=
        { s with masterProducts := s.masterProducts.map (fun r =>
            if r.id == i then
              { r with
                mrvProductNumber := p.mrv_product_number
                prodTypKey := p.prod_typ_key
                prodDescKey := p.prod_desc_key
                prodCatKey := p.prod_cat_key
                productFmmoClassification := p.product_fmmoclassification
                productFatContent := p.product_fat_content
                uomKey := p.uom_key
                conversionOunces := p.conversion_ounces
                mrvType := p.mrv_type }
            else r) }
      match findProduct s' i with
      | some r => .ok (s', r)
      | none => .error ⟨500, "Internal Server Error"⟩

/-- `DELETE /mrv-master-products/{id}` (`delete_mrv_master_product`). -/
def delete_mrv_master_product (s : DB) (i : Int) : Except ApiError (DB × String) :=
  match findProduct s i with
  | none => .error ⟨404, "Product not found"⟩
  | some _ =>
    .ok ({ s with masterProducts := s.masterProducts.filter (fun r => !(r.id == i)) },
         "Product deleted")

/-- `POST /product-descriptions/` (`create_product_description`): insert
with the client-supplied `Id` and re-read by that id. Inserting a
duplicate primary key raises an unhandled database error (HTTP 500). -/
def create_product_description (s : DB) (d : ProductDescription) :
    Except ApiError (DB × LookupRow) :=
  if (lookupFind s.productDescriptions d.id).isSome then
    .error ⟨500, "Internal Server Error"⟩
  else
    let s' : DB :=
      { s with productDescriptions := s.productDescriptions ++ [⟨d.id, d.product_description⟩] }
    match lookupFind s'.productDescriptions d.id with
    | some r => .ok (s', r)
    | none => .error ⟨500, "Internal Server Error"⟩

/-- `GET /product-descriptions/` (`get_product_descriptions`): all rows. -/
def get_product_descriptions (s : DB) : List LookupRow :=
  s.productDescriptions

/-- `PUT /product-descriptions/{id}` (`update_product_description`):
404 if absent, else overwrite only the text column and re-read. -/
def update_product_description (s : DB) (i : Int) (d : ProductDescription) :
    Except ApiError (DB × LookupRow) :=
  match lookupFind s.productDescriptions i with
  | none => .error ⟨404, "Description not found"⟩
  | some _ =>
    let s' : DB :=
      { s with productDescriptions := s.productDescriptions.map (fun r =>
          if r.id == i then { r with text := d.product_description } else r) }
    match lookupFind s'.productDescriptions i with
    | some r => .ok (s', r)
    | none => .error ⟨500, "Internal Server Error"⟩

/-- `DELETE /product-descriptions/{id}` (`delete_product_description`,
src/main.py lines 424-442): the dependent-record check on
`MRVMasterProducts.ProdDescKey` runs BEFORE the existence check. -/
def delete_product_description (s : DB) (i : Int) : Except ApiError (DB × String) :=
  if !(s.masterProducts.filter (fun r => r.prodDescKey == i)).isEmpty then
    .error ⟨400, "Cannot delete description with dependent products"⟩
  else
    match lookupFind s.productDescriptions i with
    | none => .error ⟨404, "Description not found"⟩
    | some _ =>
      .ok ({ s with productDescriptions :=
               s.productDescriptions.filter (fun r => !(r.id == i)) },
           "Description deleted")

/-- `GET /uom/` (`get_uom`): all rows of the `UoM` lookup table. -/
def get_uom (s : DB) : List LookupRow :=
  s.uoms

/-- `GET /product-categories/` (`get_product_categories`). -/
def get_product_categories (s : DB) : List LookupRow :=
  s.productCategories

/-- `GET /product-types/` (`get_product_types`). -/
def get_product_types (s : DB) : List LookupRow :=
  s.productTypes

/-! ## Requests as a step relation

A mutating request, as dispatched by the HTTP layer. FastAPI runs the
pydantic field validation of the body before the handler: an invalid body
is rejected (HTTP 422) and the handler never runs. -/

/-- One mutating HTTP request. -/
inductive Op where
  | createItem (p : Item)
  | updateItem (i : Int) (p : Item)
  | deleteItem (i : Int)
  | createProduct (p : MRVMasterProducts)
  | updateProduct (i : Int) (p : MRVMasterProducts)
  | deleteProduct (i : Int)
  | createDesc (d : ProductDescription)
  | updateDesc (i : Int) (d : ProductDescription)
  | deleteDesc (i : Int)

/-- The state after a handler result: an error leaves the database
unchanged (every raise happens before the commit of the mutation). -/
def after {α : Type} (s : DB) : Except ApiError (DB × α) → DB
  | .ok (s', _) => s'
  | .error _ => s

/-- The database state after serving one request: pydantic-invalid bodies
never reach the handler, handler errors leave the state unchanged. -/
def applyOp (s : DB) : Op → DB
  | .createItem p => if p.valid then after s (create_item s p) else s
  | .updateItem i p => if p.valid then after s (update_item s i p) else s
  | .deleteItem i => after s (delete_item s i)
  | .createProduct p => if p.valid then after s (create_mrv_master_product s p) else s
  | .updateProduct i p => if p.valid then after s (update_mrv_master_product s i p) else s
  | .deleteProduct i => after s (delete_mrv_master_product s i)
  | .createDesc d => if d.valid then after s (create_product_description s d) else s
  | .updateDesc i d => if d.valid then after s (update_product_description s i d) else s
  | .deleteDesc i => after s (delete_product_description s i)

/-- The HTTP status of an error result, if any. -/
def errStatus {α : Type} : Except ApiError α → Option Int
  | .error e => some e.status
  | .ok _ => none

/-! ## Referential-integrity invariants -/

/-- An optional stored key resolves, null and zero values exempted (zero
is exactly what the truthiness-guarded checks let through unvalidated). -/
def optKeyOk (t : List LookupRow) : Option Int → Bool
  | none => true
  | some k => k == 0 || (lookupFind t k).isSome

/-- A required stored key resolves, zero exempted. -/
def intKeyOk (t : List LookupRow) (k : Int) : Bool :=
  k == 0 || (lookupFind t k).isSome

/-- One master-product row's stored foreign keys all resolve in the four
lookup tables, null and zero values exempted. -/
def rowFkOk (descs cats typs uoms : List LookupRow) (r : MasterProductRow) : Bool :=
  intKeyOk descs r.prodDescKey && intKeyOk cats r.prodCatKey &&
  optKeyOk typs r.prodTypKey && optKeyOk uoms r.uomKey

/-- The checked referential-integrity invariant: every non-null, nonzero
foreign key stored on a master-product row resolves to a lookup row. -/
def refIntegrity (s : DB) : Bool :=
  s.masterProducts.all
    (rowFkOk s.productDescriptions s.productCategories s.productTypes s.uoms)

/-- The invariant exactly as the spec words it: every non-null stored
foreign key resolves — zero NOT exempted (`ProdDescKey`/`ProdCatKey` are
non-nullable columns, so they must always resolve on this reading). -/
def rowFkLiteral (descs cats typs uoms : List LookupRow) (r : MasterProductRow) : Bool :=
  (lookupFind descs r.prodDescKey).isSome && (lookupFind cats r.prodCatKey).isSome &&
  (match r.prodTypKey with
   | none => true
   | some k => (lookupFind typs k).isSome) &&
  (match r.uomKey with
   | none => true
   | some k => (lookupFind uoms k).isSome)

/-- `refIntegrity` with zero not exempted (the spec's literal wording). -/
def refIntegrityLiteral (s : DB) : Bool :=
  s.masterProducts.all
    (rowFkLiteral s.productDescriptions s.productCategories s.productTypes s.uoms)

/-- States reachable by serving requests, starting from any state that
satisfies the checked invariant (lookup-table content is provisioned
externally; three of the four lookup tables have no create endpoint). -/
inductive Reachable : DB → Prop where
  | init (s : DB) : refIntegrity s = true → Reachable s
  | step (s : DB) (op : Op) : Reachable s → Reachable (applyOp s op)

/-! ## Routing table -/

/-- HTTP methods used by the service. -/
inductive Method where
  | GET
  | POST
  | PUT
  | DELETE
deriving DecidableEq

/-- Every route registered on the FastAPI app, exactly the decorators of
src/main.py in source order. -/
def routes : List (Method × String) :=
  [(Method.POST, "/items/"),
   (Method.GET, "/items/"),
   (Method.GET, "/items/{item_id}"),
   (Method.PUT, "/items/{item_id}"),
   (Method.DELETE, "/items/{item_id}"),
   (Method.POST, "/mrv-master-products/"),
   (Method.GET, "/mrv-master-products/"),
   (Method.GET, "/mrv-master-products/{id}"),
   (Method.PUT, "/mrv-master-products/{id}"),
   (Method.DELETE, "/mrv-master-products/{id}"),
   (Method.POST, "/product-descriptions/"),
   (Method.GET, "/product-descriptions/"),
   (Method.PUT, "/product-descriptions/{id}"),
   (Method.DELETE, "/product-descriptions/{id}"),
   (Method.GET, "/uom/"),
   (Method.GET, "/product-categories/"),
   (Method.GET, "/product-types/")]

/-- The six resource path segments named by the spec. -/
def resourcePaths : List String :=
  ["/items/", "/mrv-master-products/", "/product-descriptions/",
   "/uom/", "/product-categories/", "/product-types/"]

/-- A master-product payload carries a bad foreign key: some nonzero key
value has no row with that `Id` in its target lookup table. This is the
disjunction of the four guards of the create-path validation block. -/
def badFkCreate (s : DB) (p : MRVMasterProducts) : Bool :=
  intFkBad s.productDescriptions p.prod_desc_key ||
  intFkBad s.productCategories p.prod_cat_key ||
  optFkBad s.productTypes p.prod_typ_key ||
  optFkBad s.uoms p.uom_key

/-! ## Concrete fixtures for witnesses and counterexamples -/

/-- A `ProductDescription` row with `Id` 1. -/
def descMilk : LookupRow := ⟨1, "Whole Milk"⟩

/-- A `ProductCategory` row with `Id` 1. -/
def catDairy : LookupRow := ⟨1, "Dairy"⟩

/-- A database holding one product description and one product category,
with empty `UoM` and `ProductTypes` tables. -/
def baseDB : DB :=
  { items := []
    masterProducts := []
    productDescriptions := [descMilk]
    uoms := []
    productCategories := [catDairy]
    productTypes := []
    nextItemId := 1
    nextProductId := 1 }

/-- A pydantic-valid master-product payload whose optional foreign keys
`prod_typ_key` and `uom_key` are both `0`. -/
def zeroKeyPayload : MRVMasterProducts :=
  { id := none
    mrv_product_number := 7
    prod_typ_key := some 0
    prod_desc_key := 1
    prod_cat_key := 1
    product_fmmoclassification := none
    product_fat_content := none
    uom_key := some 0
    conversion_ounces := none
    mrv_type := none }

/-- A pydantic-valid master-product payload whose `uom_key` is `5`,
dangling in a database whose `UoM` table is empty. -/
def badUomPayload : MRVMasterProducts :=
  { id := none
    mrv_product_number := 7
    prod_typ_key := none
    prod_desc_key := 1
    prod_cat_key := 1
    product_fmmoclassification := none
    product_fat_content := none
    uom_key := some 5
    conversion_ounces := none
    mrv_type := none }

/-- A stored master-product row whose `ProdDescKey` is `5`. -/
def rowDesc5 : MasterProductRow :=
  { id := 1
    mrvProductNumber := 7
    prodTypKey := none
    prodDescKey := 5
    prodCatKey := 1
    productFmmoClassification := none
    productFatContent := none
    uomKey := none
    conversionOunces := none
    mrvType := none }

/-- A database where a master product references `ProductDescription` id
5 although no such description row exists (reachable only outside the
service, e.g. by external writes: the tables carry no SQL constraints). -/
def danglingDB : DB :=
  { baseDB with masterProducts := [rowDesc5] }

/-- A valid item payload (the worked example of the spec). -/
def milkItem : Item :=
  { id := none, name := "Milk", description := some "2%", category := some "Dairy" }

/-- A valid product-description payload with client-supplied id 9. -/
def descPayload9 : ProductDescription :=
  { id := 9, product_description := "Cream" }

/-- The row stored by creating `milkItem` in `baseDB`. -/
def milkRow : ItemRow :=
  { id := 1, name := "Milk", description := some "2%", category := some "Dairy" }

/-- `baseDB` after creating `milkItem`. -/
def afterCreateDB : DB :=
  { baseDB with items := [milkRow], nextItemId := 2 }

/-- The row stored by creating `zeroKeyPayload` in `baseDB`. -/
def zeroKeyRow : MasterProductRow :=
  { id := 1
    mrvProductNumber := 7
    prodTypKey := some 0
    prodDescKey := 1
    prodCatKey := 1
    productFmmoClassification := none
    productFatContent := none
    uomKey := some 0
    conversionOunces := none
    mrvType := none }

/-- `baseDB` after creating `zeroKeyPayload`. -/
def afterCreateProductDB : DB :=
  { baseDB with masterProducts := [zeroKeyRow], nextProductId := 2 }

/-! ## Helper lemmas on `List.find?` -/

/-- Appending a matching row keeps `find?` successful. -/
theorem find?_append_singleton_isSome {α : Type} (p : α → Bool) (a : α) (l : List α)
    (h : p a = true) : ((l ++ [a]).find? p).isSome = true := by
  rw [List.find?_append]
  cases hf : l.find? p <;> simp [hf, h]

/-- Filtering out the rows with id `i` does not change `find?` at a key
`j ≠ i`. -/
theorem find?_filter_ne {α : Type} (idOf : α → Int) (i j : Int) (hij : j ≠ i) :
    ∀ l : List α,
      (l.filter (fun r => !(idOf r == i))).find? (fun r => idOf r == j)
        = l.find? (fun r => idOf r == j)
  | [] => rfl
  | a :: l => by
    by_cases ha : (idOf a == i) = true
    · have ha' : idOf a = i := by simpa using ha
      have hj : (idOf a == j) = false := by
        rw [ha']
        simpa using Ne.symm hij
      rw [List.filter_cons_of_neg (by simp [ha]),
        List.find?_cons_of_neg (p := fun r => idOf r == j) l (by simp [hj]),
        find?_filter_ne idOf i j hij l]
    · rw [List.filter_cons_of_pos (by simp [ha])]
      by_cases haj : (idOf a == j) = true
      · rw [List.find?_cons_of_pos (p := fun r => idOf r == j) _ haj,
          List.find?_cons_of_pos (p := fun r => idOf r == j) _ haj]
      · rw [List.find?_cons_of_neg (p := fun r => idOf r == j) _ haj,
          List.find?_cons_of_neg (p := fun r => idOf r == j) _ haj,
          find?_filter_ne idOf i j hij l]

/-- Mapping a function that only rewrites the rows with id `i`, without
changing ids, does not change `find?` at a key `j ≠ i`. -/
theorem find?_map_update_ne {α : Type} (idOf : α → Int) (g : α → α)
    (hg : ∀ r, idOf (g r) = idOf r) (i j : Int) (hij : j ≠ i) :
    ∀ l : List α,
      (l.map (fun r => if idOf r == i then g r else r)).find? (fun r => idOf r == j)
        = l.find? (fun r => idOf r == j)
  | [] => rfl
  | a :: l => by
    rw [List.map_cons]
    by_cases ha : (idOf a == i) = true
    · have ha' : idOf a = i := by simpa using ha
      have hj : (idOf a == j) = false := by
        rw [ha']
        simpa using Ne.symm hij
      rw [if_pos ha,
        List.find?_cons_of_neg (p := fun r => idOf r == j) _ (by simp [hg, hj]),
        List.find?_cons_of_neg (p := fun r => idOf r == j) _ (by simp [hj]),
        find?_map_update_ne idOf g hg i j hij l]
    · rw [if_neg ha]
      by_cases haj : (idOf a == j) = true
      · rw [List.find?_cons_of_pos (p := fun r => idOf r == j) _ haj,
          List.find?_cons_of_pos (p := fun r => idOf r == j) _ haj]
      · rw [List.find?_cons_of_neg (p := fun r => idOf r == j) _ haj,
          List.find?_cons_of_neg (p := fun r => idOf r == j) _ haj,
          find?_map_update_ne idOf g hg i j hij l]

/-- Mapping a function that only rewrites the rows with id `i`, without
changing ids, turns `find?` at `i` into its image under the rewrite. -/
theorem find?_map_update_self {α : Type} (idOf : α → Int) (g : α → α)
    (hg : ∀ r, idOf (g r) = idOf r) (i : Int) :
    ∀ l : List α,
      (l.map (fun r => if idOf r == i then g r else r)).find? (fun r => idOf r == i)
        = (l.find? (fun r => idOf r == i)).map g
  | [] => rfl
  | a :: l => by
    rw [List.map_cons]
    by_cases ha : (idOf a == i) = true
    · rw [if_pos ha,
        List.find?_cons_of_pos (p := fun r => idOf r == i) _ (by simpa [hg] using ha),
        List.find?_cons_of_pos (p := fun r => idOf r == i) _ ha]
      rfl
    · rw [if_neg ha,
        List.find?_cons_of_neg (p := fun r => idOf r == i) _ ha,
        List.find?_cons_of_neg (p := fun r => idOf r == i) _ ha,
        find?_map_update_self idOf g hg i l]

/-- `find?` by id comes up empty exactly when no row has that id. -/
theorem find?_id_none_iff {α : Type} (idOf : α → Int) (l : List α) (i : Int) :
    l.find? (fun r => idOf r == i) = none ↔ ¬ ∃ r ∈ l, idOf r = i := by
  rw [List.find?_eq_none]
  constructor
  · rintro h ⟨r, hr, hri⟩
    exact h r hr (by simp [hri])
  · intro h r hr hp
    exact h ⟨r, hr, by simpa using hp⟩

/-- The amended invariant guard is the complement of the create-path
foreign-key guard for a required key. -/
theorem intKeyOk_eq_not_intFkBad (t : List LookupRow) (n : Int) :
    intKeyOk t n = !(intFkBad t n) := by
  unfold intKeyOk intFkBad
  cases h : (n == 0) <;> cases hf : lookupFind t n <;> simp [h, hf, bne]

/-- The amended invariant guard is the complement of the create-path
foreign-key guard for an optional key. -/
theorem optKeyOk_eq_not_optFkBad (t : List LookupRow) (o : Option Int) :
    optKeyOk t o = !(optFkBad t o) := by
  cases o with
  | none => rfl
  | some n => exact intKeyOk_eq_not_intFkBad t n

/-- The create-path validation block passes exactly when none of the four
guards fires. -/
theorem fkCheckCreate_eq_none_iff (s : DB) (p : MRVMasterProducts) :
    fkCheckCreate s p = none ↔
      (intFkBad s.productDescriptions p.prod_desc_key = false ∧
       intFkBad s.productCategories p.prod_cat_key = false ∧
       optFkBad s.productTypes p.prod_typ_key = false ∧
       optFkBad s.uoms p.uom_key = false) := by
  unfold fkCheckCreate
  by_cases h1 : intFkBad s.productDescriptions p.prod_desc_key = true <;>
    by_cases h2 : intFkBad s.productCategories p.prod_cat_key = true <;>
      by_cases h3 : optFkBad s.productTypes p.prod_typ_key = true <;>
        by_cases h4 : optFkBad s.uoms p.uom_key = true <;>
          simp [h1, h2, h3, h4]

/-- The create-path validation block either passes or yields HTTP 400. -/
theorem fkCheckCreate_cases (s : DB) (p : MRVMasterProducts) :
    fkCheckCreate s p = none ∨ ∃ d, fkCheckCreate s p = some ⟨400, d⟩ := by
  unfold fkCheckCreate
  repeat' split
  all_goals first | exact Or.inl rfl | exact Or.inr ⟨_, rfl⟩

/-! ## Claims -/

/-- C4 (counterexample): the claim that every resource path supports the
uniform POST/GET/PUT/DELETE operation set is false: `/uom/` (like
`/product-categories/` and `/product-types/`) has no POST route. -/
theorem C4_counterexample : ¬ ∀ p ∈ resourcePaths, (Method.POST, p) ∈ routes := by
  decide

set_option maxRecDepth 4096 in
/-- C4 (amended): Items and MasterProducts support the full operation set
(Create, List, Get(id), Update, Delete); ProductDescription supports
Create, List, Update and Delete but no Get(id); UoM, ProductCategory and
ProductTypes support only List (GET on the collection). -/
theorem C4_route_inventory :
    ((Method.POST, "/items/") ∈ routes ∧ (Method.GET, "/items/") ∈ routes ∧
     (Method.GET, "/items/{item_id}") ∈ routes ∧ (Method.PUT, "/items/{item_id}") ∈ routes ∧
     (Method.DELETE, "/items/{item_id}") ∈ routes) ∧
    ((Method.POST, "/mrv-master-products/") ∈ routes ∧
     (Method.GET, "/mrv-master-products/") ∈ routes ∧
     (Method.GET, "/mrv-master-products/{id}") ∈ routes ∧
     (Method.PUT, "/mrv-master-products/{id}") ∈ routes ∧
     (Method.DELETE, "/mrv-master-products/{id}") ∈ routes) ∧
    ((Method.POST, "/product-descriptions/") ∈ routes ∧
     (Method.GET, "/product-descriptions/") ∈ routes ∧
     (Method.PUT, "/product-descriptions/{id}") ∈ routes ∧
     (Method.DELETE, "/product-descriptions/{id}") ∈ routes ∧
     (Method.GET, "/product-descriptions/{id}") ∉ routes) ∧
    ((Method.GET, "/uom/") ∈ routes ∧ (Method.POST, "/uom/") ∉ routes ∧
     (Method.PUT, "/uom/{id}") ∉ routes ∧ (Method.DELETE, "/uom/{id}") ∉ routes ∧
     (Method.GET, "/uom/{id}") ∉ routes) ∧
    ((Method.GET, "/product-categories/") ∈ routes ∧
     (Method.POST, "/product-categories/") ∉ routes ∧
     (Method.PUT, "/product-categories/{id}") ∉ routes ∧
     (Method.DELETE, "/product-categories/{id}") ∉ routes ∧
     (Method.GET, "/product-categories/{id}") ∉ routes) ∧
    ((Method.GET, "/product-types/") ∈ routes ∧
     (Method.POST, "/product-types/") ∉ routes ∧
     (Method.PUT, "/product-types/{id}") ∉ routes ∧
     (Method.DELETE, "/product-types/{id}") ∉ routes ∧
     (Method.GET, "/product-types/{id}") ∉ routes) := by
  refine ⟨?_, ?_, ?_, ?_, ?_, ?_⟩ <;> decide

/-- C7: update on master products fails with 404 when the row is absent,
and otherwise applies exactly the create-path foreign-key validation: the
two validation blocks agree on every state and payload, error for error. -/
theorem C7_update_fk_validation_matches_create (s : DB) (i : Int) (p : MRVMasterProducts) :
    (findProduct s i = none →
      update_mrv_master_product s i p = .error ⟨404, "Product not found"⟩) ∧
    fkCheckUpdate s p = fkCheckCreate s p := by
  constructor
  · intro h
    unfold update_mrv_master_product
    rw [h]
  · rfl

/-- C7 witness: a concrete absent id yields 404, and the two validation
blocks agree on a concrete state and payload. -/
theorem C7_witness :
    findProduct baseDB 3 = none ∧
    update_mrv_master_product baseDB 3 zeroKeyPayload = .error ⟨404, "Product not found"⟩ ∧
    fkCheckUpdate baseDB zeroKeyPayload = fkCheckCreate baseDB zeroKeyPayload :=
  ⟨by decide,
   (C7_update_fk_validation_matches_create baseDB 3 zeroKeyPayload).1 (by decide),
   (C7_update_fk_validation_matches_create baseDB 3 zeroKeyPayload).2⟩

/-- C6: get-by-id fails (always with HTTP 404) exactly when no row with
that id exists, and a successful get returns a row of the table carrying
the requested id — for `/items/{item_id}` and `/mrv-master-products/{id}`. -/
theorem C6_get_by_id (s : DB) (i : Int) :
    ((∃ e, get_item s i = .error e) ↔ ¬ ∃ r ∈ s.items, r.id = i) ∧
    (∀ e, get_item s i = .error e → e = ⟨404, "Item not found"⟩) ∧
    (∀ r, get_item s i = .ok r → r ∈ s.items ∧ r.id = i) ∧
    ((∃ e, get_mrv_master_product s i = .error e) ↔ ¬ ∃ r ∈ s.masterProducts, r.id = i) ∧
    (∀ e, get_mrv_master_product s i = .error e → e = ⟨404, "Product not found"⟩) ∧
    (∀ r, get_mrv_master_product s i = .ok r → r ∈ s.masterProducts ∧ r.id = i) := by
  have hi := find?_id_none_iff (fun r : ItemRow => r.id) s.items i
  have hp := find?_id_none_iff (fun r : MasterProductRow => r.id) s.masterProducts i
  unfold get_item get_mrv_master_product findItem findProduct
  refine ⟨?_, ?_, ?_, ?_, ?_, ?_⟩
  · rw [← hi]
    cases hf : s.items.find? (fun r => r.id == i) with
    | none => simp [hf]
    | some r => simp [hf]
  · intro e he
    cases hf : s.items.find? (fun r => r.id == i) with
    | none => rw [hf] at he; cases he; rfl
    | some r => rw [hf] at he; cases he
  · intro r hr
    cases hf : s.items.find? (fun r => r.id == i) with
    | none => rw [hf] at hr; cases hr
    | some r' =>
      rw [hf] at hr
      cases hr
      exact ⟨List.mem_of_find?_eq_some hf, by simpa using List.find?_some hf⟩
  · rw [← hp]
    cases hf : s.masterProducts.find? (fun r => r.id == i) with
    | none => simp [hf]
    | some r => simp [hf]
  · intro e he
    cases hf : s.masterProducts.find? (fun r => r.id == i) with
    | none => rw [hf] at he; cases he; rfl
    | some r => rw [hf] at he; cases he
  · intro r hr
    cases hf : s.masterProducts.find? (fun r => r.id == i) with
    | none => rw [hf] at hr; cases hr
    | some r' =>
      rw [hf] at hr
      cases hr
      exact ⟨List.mem_of_find?_eq_some hf, by simpa using List.find?_some hf⟩

/-- C6 witness: at a concrete database both the 404 and the success
behaviors are realized. -/
theorem C6_witness :
    (¬ ∃ r ∈ danglingDB.masterProducts, r.id = 3) ∧
    (∃ e, get_mrv_master_product danglingDB 3 = .error e) ∧
    (∀ r, get_mrv_master_product danglingDB 1 = .ok r →
      r ∈ danglingDB.masterProducts ∧ r.id = 1) :=
  ⟨by decide,
   (C6_get_by_id danglingDB 3).2.2.2.1.mpr (by decide),
   fun r hr => (C6_get_by_id danglingDB 1).2.2.2.2.2 r hr⟩

/-- C1 (counterexample): a create payload carrying the foreign-key value
`prod_typ_key = 0`, with no `ProductTypes` row of id 0 (the table is
empty), is NOT rejected: the create succeeds and a row is written. -/
theorem C1_counterexample :
    zeroKeyPayload.prod_typ_key = some 0 ∧
    lookupFind baseDB.productTypes 0 = none ∧
    errStatus (create_mrv_master_product baseDB zeroKeyPayload) = none ∧
    (applyOp baseDB (Op.createProduct zeroKeyPayload)).masterProducts ≠ [] := by
  refine ⟨rfl, rfl, ?_, ?_⟩ <;> decide

/-- C1 (amended): a create payload carrying a NONZERO foreign-key value
with no row of that id in its target lookup table is rejected with
HTTP 400 and the database state is unchanged. -/
theorem C1_nonzero_bad_fk_rejected (s : DB) (p : MRVMasterProducts)
    (h : badFkCreate s p = true) :
    errStatus (create_mrv_master_product s p) = some 400 ∧
    applyOp s (Op.createProduct p) = s := by
  have hne : fkCheckCreate s p ≠ none := by
    intro hnone
    rw [fkCheckCreate_eq_none_iff] at hnone
    obtain ⟨h1, h2, h3, h4⟩ := hnone
    unfold badFkCreate at h
    rw [h1, h2, h3, h4] at h
    simp at h
  obtain ⟨d, hd⟩ : ∃ d, fkCheckCreate s p = some ⟨400, d⟩ := by
    rcases fkCheckCreate_cases s p with hnone | hsome
    · exact absurd hnone hne
    · exact hsome
  constructor
  · unfold create_mrv_master_product
    rw [hd]
    rfl
  · unfold applyOp
    by_cases hv : p.valid
    · simp only [hv, if_true]
      unfold after create_mrv_master_product
      rw [hd]
    · simp only [Bool.not_eq_true] at hv
      simp [hv]

/-- C1 witness: a concrete dangling nonzero `uom_key` is rejected with
HTTP 400 and leaves the database unchanged. -/
theorem C1_witness :
    badFkCreate baseDB badUomPayload = true ∧
    errStatus (create_mrv_master_product baseDB badUomPayload) = some 400 ∧
    applyOp baseDB (Op.createProduct badUomPayload) = baseDB :=
  ⟨by decide,
   (C1_nonzero_bad_fk_rejected baseDB badUomPayload (by decide)).1,
   (C1_nonzero_bad_fk_rejected baseDB badUomPayload (by decide)).2⟩

/-- C2 (counterexample): deleting a NONEXISTENT description id that a
master-product row references (a dangling reference, possible because
the tables carry no SQL foreign-key constraints) returns the Conflict
error, not NotFound: the dependent check runs before the existence
check, so the claim's "deleting a nonexistent id returns NotFound" fails. -/
theorem C2_counterexample :
    lookupFind danglingDB.productDescriptions 5 = none ∧
    delete_product_description danglingDB 5 =
      .error ⟨400, "Cannot delete description with dependent products"⟩ :=
  ⟨rfl, rfl⟩

/-- C2 (amended): the dependent-record check takes precedence: deleting a
description id referenced by some master product fails with Conflict
(HTTP 400) even if no such description row exists; otherwise an absent id
yields NotFound; otherwise exactly the rows with that id are removed,
every other table and every other description row being untouched, and a
confirmation is returned. -/
theorem C2_delete_description_dependents_first (s : DB) (i : Int) :
    ((s.masterProducts.filter (fun r => r.prodDescKey == i)).isEmpty = false →
      delete_product_description s i =
        .error ⟨400, "Cannot delete description with dependent products"⟩) ∧
    ((s.masterProducts.filter (fun r => r.prodDescKey == i)).isEmpty = true →
      lookupFind s.productDescriptions i = none →
      delete_product_description s i = .error ⟨404, "Description not found"⟩) ∧
    ((s.masterProducts.filter (fun r => r.prodDescKey == i)).isEmpty = true →
      ∀ r, lookupFind s.productDescriptions i = some r →
        ∃ s', delete_product_description s i = .ok (s', "Description deleted") ∧
          lookupFind s'.productDescriptions i = none ∧
          (∀ j, j ≠ i →
            lookupFind s'.productDescriptions j = lookupFind s.productDescriptions j) ∧
          s'.items = s.items ∧ s'.masterProducts = s.masterProducts ∧
          s'.uoms = s.uoms ∧ s'.productCategories = s.productCategories ∧
          s'.productTypes = s.productTypes) := by
  refine ⟨?_, ?_, ?_⟩
  · intro h
    unfold delete_product_description
    rw [h]
    rfl
  · intro h hnone
    unfold delete_product_description
    rw [h, hnone]
    rfl
  · intro h r hr
    refine ⟨{ s with productDescriptions :=
        s.productDescriptions.filter (fun x => !(x.id == i)) },
      ?_, ?_, ?_, rfl, rfl, rfl, rfl, rfl⟩
    · unfold delete_product_description
      rw [h, hr]
      rfl
    · unfold lookupFind
      rw [List.find?_eq_none]
      intro x hx
      have := (List.mem_filter.mp hx).2
      simpa using this
    · intro j hj
      unfold lookupFind
      exact find?_filter_ne LookupRow.id i j hj s.productDescriptions

/-- C2 witness: deleting the unreferenced description row with id 1 of a
concrete database removes exactly that row. -/
theorem C2_witness :
    (baseDB.masterProducts.filter (fun r => r.prodDescKey == 1)).isEmpty = true ∧
    lookupFind baseDB.productDescriptions 1 = some descMilk ∧
    (∃ s', delete_product_description baseDB 1 = .ok (s', "Description deleted") ∧
      lookupFind s'.productDescriptions 1 = none ∧
      (∀ j, j ≠ 1 →
        lookupFind s'.productDescriptions j = lookupFind baseDB.productDescriptions j) ∧
      s'.items = baseDB.items ∧ s'.masterProducts = baseDB.masterProducts ∧
      s'.uoms = baseDB.uoms ∧ s'.productCategories = baseDB.productCategories ∧
      s'.productTypes = baseDB.productTypes) :=
  ⟨by decide, by decide,
   (C2_delete_description_dependents_first baseDB 1).2.2 (by decide) descMilk (by decide)⟩

/-- C5: creating a record and then reading it back by the id contained in
the create response yields exactly the record of the create response. -/
theorem C5_create_then_get_roundtrip (s : DB) (p : Item) (hv : p.valid = true)
    (s' : DB) (rec : ItemRow) (h : create_item s p = .ok (s', rec)) :
    get_item s' rec.id = .ok rec := by
  simp only [create_item] at h
  split at h
  next r heq =>
    rw [Except.ok.injEq, Prod.mk.injEq] at h
    obtain ⟨hs, hr⟩ := h
    subst hs
    subst hr
    have heqf := heq
    unfold findItem at heqf
    have hid : r.id = s.nextItemId := by simpa using List.find?_some heqf
    unfold get_item findItem
    rw [hid]
    unfold findItem at heq
    rw [heq]
  next heq => exact Except.noConfusion h

/-- C5 witness: the spec's worked example, concretely. -/
theorem C5_witness :
    milkItem.valid = true ∧
    create_item baseDB milkItem = .ok (afterCreateDB, milkRow) ∧
    get_item afterCreateDB milkRow.id = .ok milkRow :=
  ⟨by decide, by rfl,
   C5_create_then_get_roundtrip baseDB milkItem (by decide) afterCreateDB milkRow (by rfl)⟩

/-- C9: the stored key of a created item or master product is the
server-side autoincrement value — the payload's `id` field is never read,
so creating with any `id` behaves exactly like creating with `id = None`
— while a created product description stores the client-supplied id. -/
theorem C9_key_assignment (s : DB) (p : Item) (q : MRVMasterProducts)
    (d : ProductDescription) :
    create_item s p = create_item s { p with id := none } ∧
    create_mrv_master_product s q = create_mrv_master_product s { q with id := none } ∧
    (∀ s' r, create_item s p = .ok (s', r) → r.id = s.nextItemId) ∧
    (∀ s' r, create_mrv_master_product s q = .ok (s', r) → r.id = s.nextProductId) ∧
    (∀ s' r, create_product_description s d = .ok (s', r) → r.id = d.id) := by
  refine ⟨rfl, rfl, ?_, ?_, ?_⟩
  · intro s' r h
    simp only [create_item] at h
    split at h
    next r' heq =>
      rw [Except.ok.injEq, Prod.mk.injEq] at h
      obtain ⟨hs, hr⟩ := h
      subst hs
      subst hr
      unfold findItem at heq
      simpa using List.find?_some heq
    next heq => exact Except.noConfusion h
  · intro s' r h
    simp only [create_mrv_master_product] at h
    split at h
    next e heq0 => exact Except.noConfusion h
    next heq0 =>
      split at h
      next r' heq =>
        rw [Except.ok.injEq, Prod.mk.injEq] at h
        obtain ⟨hs, hr⟩ := h
        subst hs
        subst hr
        unfold findProduct at heq
        simpa using List.find?_some heq
      next heq => exact Except.noConfusion h
  · intro s' r h
    simp only [create_product_description] at h
    split at h
    next hdup => exact Except.noConfusion h
    next hdup =>
      split at h
      next r' heq =>
        rw [Except.ok.injEq, Prod.mk.injEq] at h
        obtain ⟨hs, hr⟩ := h
        subst hs
        subst hr
        unfold lookupFind at heq
        simpa using List.find?_some heq
      next heq => exact Except.noConfusion h

/-- C9 witness: concrete creations realize both key disciplines. -/
theorem C9_witness :
    create_item baseDB milkItem = .ok (afterCreateDB, milkRow) ∧
    milkRow.id = baseDB.nextItemId ∧
    (∀ s' r, create_product_description baseDB descPayload9 = .ok (s', r) →
      r.id = descPayload9.id) :=
  ⟨by rfl,
   (C9_key_assignment baseDB milkItem zeroKeyPayload descPayload9).2.2.1
     afterCreateDB milkRow (by rfl),
   (C9_key_assignment baseDB milkItem zeroKeyPayload descPayload9).2.2.2.2⟩

/-- C8: a successful update touches only the row with the targeted id:
every other table is untouched, and lookup by any other id is unchanged
— for items and for master products. -/
theorem C8_update_frame (s : DB) (i : Int) (p : Item) (q : MRVMasterProducts) :
    (∀ s' r, update_item s i p = .ok (s', r) →
      s'.masterProducts = s.masterProducts ∧
      s'.productDescriptions = s.productDescriptions ∧
      s'.uoms = s.uoms ∧ s'.productCategories = s.productCategories ∧
      s'.productTypes = s.productTypes ∧
      ∀ j, j ≠ i → findItem s' j = findItem s j) ∧
    (∀ s' r, update_mrv_master_product s i q = .ok (s', r) →
      s'.items = s.items ∧
      s'.productDescriptions = s.productDescriptions ∧
      s'.uoms = s.uoms ∧ s'.productCategories = s.productCategories ∧
      s'.productTypes = s.productTypes ∧
      ∀ j, j ≠ i → findProduct s' j = findProduct s j) := by
  constructor
  · intro s' r h
    simp only [update_item] at h
    split at h
    next heq0 => exact Except.noConfusion h
    next x heq0 =>
      split at h
      next r' heq =>
        rw [Except.ok.injEq, Prod.mk.injEq] at h
        obtain ⟨hs, hr⟩ := h
        subst hs
        subst hr
        refine ⟨rfl, rfl, rfl, rfl, rfl, ?_⟩
        intro j hj
        unfold findItem
        exact find?_map_update_ne ItemRow.id
          (fun x => { x with
            name := p.name
            description := p.description
            category := p.category })
          (fun x => rfl) i j hj s.items
      next heq => exact Except.noConfusion h
  · intro s' r h
    simp only [update_mrv_master_product] at h
    split at h
    next heq0 => exact Except.noConfusion h
    next x heq0 =>
      split at h
      next e heq1 => exact Except.noConfusion h
      next heq1 =>
        split at h
        next r' heq =>
          rw [Except.ok.injEq, Prod.mk.injEq] at h
          obtain ⟨hs, hr⟩ := h
          subst hs
          subst hr
          refine ⟨rfl, rfl, rfl, rfl, rfl, ?_⟩
          intro j hj
          unfold findProduct
          exact find?_map_update_ne MasterProductRow.id
            (fun x => { x with
              mrvProductNumber := q.mrv_product_number
              prodTypKey := q.prod_typ_key
              prodDescKey := q.prod_desc_key
              prodCatKey := q.prod_cat_key
              productFmmoClassification := q.product_fmmoclassification
              productFatContent := q.product_fat_content
              uomKey := q.uom_key
              conversionOunces := q.conversion_ounces
              mrvType := q.mrv_type })
            (fun x => rfl) i j hj s.masterProducts
        next heq => exact Except.noConfusion h

/-- C8 witness: a concrete successful update leaves the other tables and
the other rows in place. -/
theorem C8_witness :
    update_item afterCreateDB 1 milkItem =
      .ok (afterCreateDB, milkRow) ∧
    (∀ s' r, update_item afterCreateDB 1 milkItem = .ok (s', r) →
      s'.masterProducts = afterCreateDB.masterProducts ∧
      s'.productDescriptions = afterCreateDB.productDescriptions ∧
      s'.uoms = afterCreateDB.uoms ∧
      s'.productCategories = afterCreateDB.productCategories ∧
      s'.productTypes = afterCreateDB.productTypes ∧
      ∀ j, j ≠ 1 → findItem s' j = findItem afterCreateDB j) :=
  ⟨by rfl, (C8_update_frame afterCreateDB 1 milkItem zeroKeyPayload).1⟩

/-- The optional-key columns of the record returned by a successful
master-product create are the payload's values (the autoincrement key is
fresh, so the re-read returns the inserted row). -/
theorem create_mrv_ok_row (s : DB) (q : MRVMasterProducts)
    (hfresh : ∀ x ∈ s.masterProducts, x.id ≠ s.nextProductId)
    (s' : DB) (r : MasterProductRow)
    (h : create_mrv_master_product s q = .ok (s', r)) :
    r.prodTypKey = q.prod_typ_key ∧ r.uomKey = q.uom_key := by
  simp only [create_mrv_master_product] at h
  split at h
  next e heq0 => exact Except.noConfusion h
  next heq0 =>
    split at h
    next r' heq =>
      rw [Except.ok.injEq, Prod.mk.injEq] at h
      obtain ⟨hs, hr⟩ := h
      subst hs
      subst hr
      unfold findProduct at heq
      rw [List.find?_append] at heq
      have hnone : s.masterProducts.find? (fun x => x.id == s.nextProductId) = none := by
        rw [List.find?_eq_none]
        intro x hx
        simpa using hfresh x hx
      rw [hnone] at heq
      simp at heq
      rw [← heq]
      exact ⟨rfl, rfl⟩
    next heq => exact Except.noConfusion h

/-- The optional-key columns of the record returned by a successful
master-product update are the payload's values (every row with the
targeted id is overwritten before the re-read). -/
theorem update_mrv_ok_row (s : DB) (i : Int) (q : MRVMasterProducts)
    (s' : DB) (r : MasterProductRow)
    (h : update_mrv_master_product s i q = .ok (s', r)) :
    r.prodTypKey = q.prod_typ_key ∧ r.uomKey = q.uom_key := by
  simp only [update_mrv_master_product] at h
  split at h
  next heq0 => exact Except.noConfusion h
  next x heq0 =>
    split at h
    next e heq1 => exact Except.noConfusion h
    next heq1 =>
      split at h
      next r' heq =>
        rw [Except.ok.injEq, Prod.mk.injEq] at h
        obtain ⟨hs, hr⟩ := h
        subst hs
        subst hr
        unfold findProduct at heq
        rw [find?_map_update_self MasterProductRow.id
          (fun x => { x with
            mrvProductNumber := q.mrv_product_number
            prodTypKey := q.prod_typ_key
            prodDescKey := q.prod_desc_key
            prodCatKey := q.prod_cat_key
            productFmmoClassification := q.product_fmmoclassification
            productFatContent := q.product_fat_content
            uomKey := q.uom_key
            conversionOunces := q.conversion_ounces
            mrvType := q.mrv_type })
          (fun x => rfl) i s.masterProducts] at heq
        rw [Option.map_eq_some'] at heq
        obtain ⟨y, hy, hgy⟩ := heq
        rw [← hgy]
        exact ⟨rfl, rfl⟩
      next heq => exact Except.noConfusion h

/-- C10: a create or update of a master product whose optional
`prod_typ_key` OR `uom_key` equals `0` skips the existence check for that
field, independently of the other field (Python truthiness treats `0` as
absent): validation behaves exactly as if that field were `None` — so the
operation succeeds whenever it would with the field absent, with no
requirement that a lookup row with id 0 exist — and a successful create
or update stores `0` in that column. -/
theorem C10_zero_fk_skipped (s : DB) (i : Int) (q : MRVMasterProducts) :
    (q.prod_typ_key = some 0 →
      fkCheckCreate s q = fkCheckCreate s { q with prod_typ_key := none } ∧
      fkCheckUpdate s q = fkCheckUpdate s { q with prod_typ_key := none } ∧
      ((∀ x ∈ s.masterProducts, x.id ≠ s.nextProductId) →
        ∀ s' r, create_mrv_master_product s q = .ok (s', r) → r.prodTypKey = some 0) ∧
      (∀ s' r, update_mrv_master_product s i q = .ok (s', r) → r.prodTypKey = some 0)) ∧
    (q.uom_key = some 0 →
      fkCheckCreate s q = fkCheckCreate s { q with uom_key := none } ∧
      fkCheckUpdate s q = fkCheckUpdate s { q with uom_key := none } ∧
      ((∀ x ∈ s.masterProducts, x.id ≠ s.nextProductId) →
        ∀ s' r, create_mrv_master_product s q = .ok (s', r) → r.uomKey = some 0) ∧
      (∀ s' r, update_mrv_master_product s i q = .ok (s', r) → r.uomKey = some 0)) := by
  constructor
  · intro ht
    refine ⟨?_, ?_, ?_, ?_⟩
    · unfold fkCheckCreate
      rw [ht]
      rfl
    · unfold fkCheckUpdate
      rw [ht]
      rfl
    · intro hfresh s' r h
      rw [(create_mrv_ok_row s q hfresh s' r h).1]
      exact ht
    · intro s' r h
      rw [(update_mrv_ok_row s i q s' r h).1]
      exact ht
  · intro hu
    refine ⟨?_, ?_, ?_, ?_⟩
    · unfold fkCheckCreate
      rw [hu]
      rfl
    · unfold fkCheckUpdate
      rw [hu]
      rfl
    · intro hfresh s' r h
      rw [(create_mrv_ok_row s q hfresh s' r h).2]
      exact hu
    · intro s' r h
      rw [(update_mrv_ok_row s i q s' r h).2]
      exact hu

/-- C10 witness: a concrete create with the optional keys `0`, against
empty `ProductTypes` and `UoM` tables, succeeds and the stored row
carries `0` in both columns — each zero concluded from its own
implication of the theorem. -/
theorem C10_witness :
    zeroKeyPayload.prod_typ_key = some 0 ∧
    zeroKeyPayload.uom_key = some 0 ∧
    lookupFind baseDB.productTypes 0 = none ∧
    lookupFind baseDB.uoms 0 = none ∧
    create_mrv_master_product baseDB zeroKeyPayload = .ok (afterCreateProductDB, zeroKeyRow) ∧
    zeroKeyRow.prodTypKey = some 0 ∧
    zeroKeyRow.uomKey = some 0 :=
  ⟨rfl, rfl, rfl, rfl, by rfl,
   ((C10_zero_fk_skipped baseDB 1 zeroKeyPayload).1 rfl).2.2.1 (by decide)
     afterCreateProductDB zeroKeyRow (by rfl),
   ((C10_zero_fk_skipped baseDB 1 zeroKeyPayload).2 rfl).2.2.1 (by decide)
     afterCreateProductDB zeroKeyRow (by rfl)⟩

/-! ## Preservation of referential integrity (C3) -/

/-- Pointwise-equal predicates give equal `all`. -/
theorem all_congr_of_mem {α : Type} (l : List α) (p q : α → Bool)
    (h : ∀ x ∈ l, p x = q x) : l.all p = l.all q := by
  induction l with
  | nil => rfl
  | cons a l ih =>
    rw [List.all_cons, List.all_cons, h a (by simp),
      ih (fun x hx => h x (by simp [hx]))]

/-- `all` is stable under `filter`. -/
theorem all_filter_of_all {α : Type} (l : List α) (p q : α → Bool)
    (h : l.all p = true) : (l.filter q).all p = true := by
  rw [List.all_eq_true] at h ⊢
  intro x hx
  exact h x (List.mem_of_mem_filter hx)

/-- Appending a lookup row keeps an id resolvable. -/
theorem lookupFind_append_isSome (t : List LookupRow) (a : LookupRow) (k : Int)
    (h : (lookupFind t k).isSome = true) :
    (lookupFind (t ++ [a]) k).isSome = true := by
  unfold lookupFind at h ⊢
  rw [List.find?_append]
  cases hf : t.find? (fun r => r.id == k) with
  | none => rw [hf] at h; cases h
  | some x => simp [hf]

/-- Appending a lookup row keeps a required key valid. -/
theorem intKeyOk_append (t : List LookupRow) (a : LookupRow) (k : Int)
    (h : intKeyOk t k = true) : intKeyOk (t ++ [a]) k = true := by
  unfold intKeyOk at h ⊢
  rcases Bool.or_eq_true_iff.mp h with h0 | h1
  · exact Bool.or_eq_true_iff.mpr (Or.inl h0)
  · exact Bool.or_eq_true_iff.mpr (Or.inr (lookupFind_append_isSome t a k h1))

/-- Rewriting only the text of lookup rows does not change which ids
resolve. -/
theorem lookupFind_isSome_map_text (t : List LookupRow) (d : String) (i k : Int) :
    (lookupFind (t.map (fun r => if r.id == i then { r with text := d } else r)) k).isSome
      = (lookupFind t k).isSome := by
  by_cases hk : k = i
  · subst hk
    unfold lookupFind
    rw [find?_map_update_self LookupRow.id (fun r => { r with text := d })
      (fun r => rfl) k t]
    cases t.find? (fun r => r.id == k) <;> rfl
  · unfold lookupFind
    rw [find?_map_update_ne LookupRow.id (fun r => { r with text := d })
      (fun r => rfl) i k hk t]

/-- The row written by a passing create validation satisfies the checked
invariant guard. -/
theorem rowFkOk_of_fkCheckCreate_none (s : DB) (p : MRVMasterProducts) (n : Int)
    (h : fkCheckCreate s p = none) :
    rowFkOk s.productDescriptions s.productCategories s.productTypes s.uoms
      { id := n
        mrvProductNumber := p.mrv_product_number
        prodTypKey := p.prod_typ_key
        prodDescKey := p.prod_desc_key
        prodCatKey := p.prod_cat_key
        productFmmoClassification := p.product_fmmoclassification
        productFatContent := p.product_fat_content
        uomKey := p.uom_key
        conversionOunces := p.conversion_ounces
        mrvType := p.mrv_type } = true := by
  rw [fkCheckCreate_eq_none_iff] at h
  obtain ⟨h1, h2, h3, h4⟩ := h
  unfold rowFkOk
  simp [intKeyOk_eq_not_intFkBad, optKeyOk_eq_not_optFkBad, h1, h2, h3, h4]

/-- A successful item create reaches exactly the inserted-row state. -/
theorem create_item_ok_state (s : DB) (p : Item) (s' : DB) (r : ItemRow)
    (h : create_item s p = .ok (s', r)) :
    s' = { s with items := s.items ++ [{ id := s.nextItemId, name := p.name, description := p.description, category := p.category }], nextItemId := s.nextItemId + 1 } := by
  simp only [create_item] at h
  split at h
  next r' heq =>
    rw [Except.ok.injEq, Prod.mk.injEq] at h
    exact h.1.symm
  next heq => exact Except.noConfusion h

/-- A successful item update reaches exactly the overwritten-row state. -/
theorem update_item_ok_state (s : DB) (i : Int) (p : Item) (s' : DB) (r : ItemRow)
    (h : update_item s i p = .ok (s', r)) :
    s' = { s with items := s.items.map (fun x => if x.id == i then { x with name := p.name, description := p.description, category := p.category } else x) } := by
  simp only [update_item] at h
  split at h
  next heq => exact Except.noConfusion h
  next x heq =>
    split at h
    next r' heq2 =>
      rw [Except.ok.injEq, Prod.mk.injEq] at h
      exact h.1.symm
    next heq2 => exact Except.noConfusion h

/-- A successful item delete reaches exactly the filtered state. -/
theorem delete_item_ok_state (s : DB) (i : Int) (s' : DB) (m : String)
    (h : delete_item s i = .ok (s', m)) :
    s' = { s with items := s.items.filter (fun x => !(x.id == i)) } := by
  simp only [delete_item] at h
  split at h
  next heq => exact Except.noConfusion h
  next x heq =>
    rw [Except.ok.injEq, Prod.mk.injEq] at h
    exact h.1.symm

/-- A successful master-product create passed validation and reaches
exactly the inserted-row state. -/
theorem create_mrv_ok_state (s : DB) (p : MRVMasterProducts) (s' : DB)
    (r : MasterProductRow) (h : create_mrv_master_product s p = .ok (s', r)) :
    fkCheckCreate s p = none ∧
    s' = { s with masterProducts := s.masterProducts ++ [{ id := s.nextProductId, mrvProductNumber := p.mrv_product_number, prodTypKey := p.prod_typ_key, prodDescKey := p.prod_desc_key, prodCatKey := p.prod_cat_key, productFmmoClassification := p.product_fmmoclassification, productFatContent := p.product_fat_content, uomKey := p.uom_key, conversionOunces := p.conversion_ounces, mrvType := p.mrv_type }], nextProductId := s.nextProductId + 1 } := by
  simp only [create_mrv_master_product] at h
  split at h
  next e heq => exact Except.noConfusion h
  next heq =>
    split at h
    next r' heq2 =>
      rw [Except.ok.injEq, Prod.mk.injEq] at h
      exact ⟨heq, h.1.symm⟩
    next heq2 => exact Except.noConfusion h

/-- A successful master-product update passed validation and reaches
exactly the overwritten-row state. -/
theorem update_mrv_ok_state (s : DB) (i : Int) (p : MRVMasterProducts) (s' : DB)
    (r : MasterProductRow) (h : update_mrv_master_product s i p = .ok (s', r)) :
    fkCheckUpdate s p = none ∧
    s' = { s with masterProducts := s.masterProducts.map (fun x => if x.id == i then { x with mrvProductNumber := p.mrv_product_number, prodTypKey := p.prod_typ_key, prodDescKey := p.prod_desc_key, prodCatKey := p.prod_cat_key, productFmmoClassification := p.product_fmmoclassification, productFatContent := p.product_fat_content, uomKey := p.uom_key, conversionOunces := p.conversion_ounces, mrvType := p.mrv_type } else x) } := by
  simp only [update_mrv_master_product] at h
  split at h
  next heq0 => exact Except.noConfusion h
  next x heq0 =>
    split at h
    next e heq1 => exact Except.noConfusion h
    next heq1 =>
      split at h
      next r' heq2 =>
        rw [Except.ok.injEq, Prod.mk.injEq] at h
        exact ⟨heq1, h.1.symm⟩
      next heq2 => exact Except.noConfusion h

/-- A successful master-product delete reaches exactly the filtered state. -/
theorem delete_mrv_ok_state (s : DB) (i : Int) (s' : DB) (m : String)
    (h : delete_mrv_master_product s i = .ok (s', m)) :
    s' = { s with masterProducts := s.masterProducts.filter (fun x => !(x.id == i)) } := by
  simp only [delete_mrv_master_product] at h
  split at h
  next heq => exact Except.noConfusion h
  next x heq =>
    rw [Except.ok.injEq, Prod.mk.injEq] at h
    exact h.1.symm

/-- A successful description create reaches exactly the inserted-row
state. -/
theorem create_desc_ok_state (s : DB) (d : ProductDescription) (s' : DB)
    (r : LookupRow) (h : create_product_description s d = .ok (s', r)) :
    s' = { s with productDescriptions := s.productDescriptions ++ [⟨d.id, d.product_description⟩] } := by
  simp only [create_product_description] at h
  split at h
  next hdup => exact Except.noConfusion h
  next hdup =>
    split at h
    next r' heq =>
      rw [Except.ok.injEq, Prod.mk.injEq] at h
      exact h.1.symm
    next heq => exact Except.noConfusion h

/-- A successful description update reaches exactly the rewritten-text
state. -/
theorem update_desc_ok_state (s : DB) (i : Int) (d : ProductDescription) (s' : DB)
    (r : LookupRow) (h : update_product_description s i d = .ok (s', r)) :
    s' = { s with productDescriptions := s.productDescriptions.map (fun x => if x.id == i then { x with text := d.product_description } else x) } := by
  simp only [update_product_description] at h
  split at h
  next heq0 => exact Except.noConfusion h
  next x heq0 =>
    split at h
    next r' heq =>
      rw [Except.ok.injEq, Prod.mk.injEq] at h
      exact h.1.symm
    next heq => exact Except.noConfusion h

/-- A successful description delete had no dependents and reaches exactly
the filtered state. -/
theorem delete_desc_ok_state (s : DB) (i : Int) (s' : DB) (m : String)
    (h : delete_product_description s i = .ok (s', m)) :
    (s.masterProducts.filter (fun r => r.prodDescKey == i)).isEmpty = true ∧
    s' = { s with productDescriptions := s.productDescriptions.filter (fun x => !(x.id == i)) } := by
  simp only [delete_product_description] at h
  split at h
  next hdep => exact Except.noConfusion h
  next hdep =>
    split at h
    next heq => exact Except.noConfusion h
    next x heq =>
      rw [Except.ok.injEq, Prod.mk.injEq] at h
      refine ⟨?_, h.1.symm⟩
      simpa using hdep

/-- Creating a master product from a passing validation preserves the
checked invariant. -/
theorem refIntegrity_append_row (s : DB) (p : MRVMasterProducts)
    (ih : refIntegrity s = true) (h : fkCheckCreate s p = none) :
    refIntegrity { s with masterProducts := s.masterProducts ++ [{ id := s.nextProductId, mrvProductNumber := p.mrv_product_number, prodTypKey := p.prod_typ_key, prodDescKey := p.prod_desc_key, prodCatKey := p.prod_cat_key, productFmmoClassification := p.product_fmmoclassification, productFatContent := p.product_fat_content, uomKey := p.uom_key, conversionOunces := p.conversion_ounces, mrvType := p.mrv_type }], nextProductId := s.nextProductId + 1 } = true := by
  unfold refIntegrity at ih ⊢
  simp only [List.all_append, List.all_cons, List.all_nil, Bool.and_true]
  rw [ih, rowFkOk_of_fkCheckCreate_none s p s.nextProductId h]
  rfl

/-- Overwriting the fields of the targeted master-product rows from a
passing validation preserves the checked invariant. -/
theorem refIntegrity_map_row (s : DB) (p : MRVMasterProducts) (i : Int)
    (ih : refIntegrity s = true) (h : fkCheckUpdate s p = none) :
    refIntegrity { s with masterProducts := s.masterProducts.map (fun x => if x.id == i then { x with mrvProductNumber := p.mrv_product_number, prodTypKey := p.prod_typ_key, prodDescKey := p.prod_desc_key, prodCatKey := p.prod_cat_key, productFmmoClassification := p.product_fmmoclassification, productFatContent := p.product_fat_content, uomKey := p.uom_key, conversionOunces := p.conversion_ounces, mrvType := p.mrv_type } else x) } = true := by
  unfold refIntegrity at ih ⊢
  rw [List.all_map, List.all_eq_true]
  rw [List.all_eq_true] at ih
  intro r hr
  by_cases hid : (r.id == i) = true
  · simp only [Function.comp, hid, if_true]
    exact rowFkOk_of_fkCheckCreate_none s p r.id h
  · simp only [Function.comp, hid, if_false]
    exact ih r hr

/-- Deleting a description with no dependents preserves the checked
invariant. -/
theorem refIntegrity_delete_desc (s : DB) (i : Int)
    (ih : refIntegrity s = true)
    (hdep : (s.masterProducts.filter (fun r => r.prodDescKey == i)).isEmpty = true) :
    refIntegrity { s with productDescriptions := s.productDescriptions.filter (fun x => !(x.id == i)) } = true := by
  have hnil : s.masterProducts.filter (fun x => x.prodDescKey == i) = [] := by
    cases hfl : s.masterProducts.filter (fun x => x.prodDescKey == i) with
    | nil => rfl
    | cons a l => rw [hfl] at hdep; cases hdep
  unfold refIntegrity at ih ⊢
  rw [List.all_eq_true] at ih ⊢
  intro r hr
  have hb := ih r hr
  have hkey : r.prodDescKey ≠ i := by
    intro hk
    have hmem : r ∈ s.masterProducts.filter (fun x => x.prodDescKey == i) :=
      List.mem_filter.mpr ⟨hr, by simp [hk]⟩
    rw [hnil] at hmem
    cases hmem
  unfold rowFkOk intKeyOk at hb ⊢
  have hfind : lookupFind (s.productDescriptions.filter (fun x => !(x.id == i))) r.prodDescKey = lookupFind s.productDescriptions r.prodDescKey := by
    unfold lookupFind
    exact find?_filter_ne LookupRow.id i r.prodDescKey hkey s.productDescriptions
  rw [hfind]
  exact hb

/-- Appending a description row preserves the checked invariant. -/
theorem refIntegrity_append_desc (s : DB) (a : LookupRow)
    (ih : refIntegrity s = true) :
    refIntegrity { s with productDescriptions := s.productDescriptions ++ [a] } = true := by
  unfold refIntegrity at ih ⊢
  rw [List.all_eq_true] at ih ⊢
  intro r hr
  have hb := ih r hr
  unfold rowFkOk at hb ⊢
  rcases Bool.and_eq_true_iff.mp hb with ⟨hb1, hb4⟩
  rcases Bool.and_eq_true_iff.mp hb1 with ⟨hb2, hb3⟩
  rcases Bool.and_eq_true_iff.mp hb2 with ⟨hdesc, hcat⟩
  rw [Bool.and_eq_true_iff, Bool.and_eq_true_iff, Bool.and_eq_true_iff]
  exact ⟨⟨⟨intKeyOk_append s.productDescriptions a r.prodDescKey hdesc, hcat⟩, hb3⟩, hb4⟩

/-- Rewriting the text of description rows preserves the checked
invariant. -/
theorem refIntegrity_update_desc (s : DB) (i : Int) (d : String)
    (ih : refIntegrity s = true) :
    refIntegrity { s with productDescriptions := s.productDescriptions.map (fun r => if r.id == i then { r with text := d } else r) } = true := by
  unfold refIntegrity at ih ⊢
  rw [List.all_eq_true] at ih ⊢
  intro r hr
  have hb := ih r hr
  unfold rowFkOk intKeyOk at hb ⊢
  rw [lookupFind_isSome_map_text s.productDescriptions d i r.prodDescKey]
  exact hb

/-- Serving any single request preserves the checked referential-integrity
invariant. -/
theorem refIntegrity_applyOp (s : DB) (op : Op) (ih : refIntegrity s = true) :
    refIntegrity (applyOp s op) = true := by
  cases op with
  | createItem p =>
    simp only [applyOp]
    by_cases hv : p.valid
    · simp only [hv, if_true]
      cases hres : create_item s p with
      | error e => exact ih
      | ok v =>
        obtain ⟨s', r⟩ := v
        show refIntegrity s' = true
        rw [create_item_ok_state s p s' r hres]
        exact ih
    · simp only [Bool.not_eq_true] at hv
      simp only [hv, Bool.false_eq_true, if_false]
      exact ih
  | updateItem i p =>
    simp only [applyOp]
    by_cases hv : p.valid
    · simp only [hv, if_true]
      cases hres : update_item s i p with
      | error e => exact ih
      | ok v =>
        obtain ⟨s', r⟩ := v
        show refIntegrity s' = true
        rw [update_item_ok_state s i p s' r hres]
        exact ih
    · simp only [Bool.not_eq_true] at hv
      simp only [hv, Bool.false_eq_true, if_false]
      exact ih
  | deleteItem i =>
    simp only [applyOp]
    cases hres : delete_item s i with
    | error e => exact ih
    | ok v =>
      obtain ⟨s', m⟩ := v
      show refIntegrity s' = true
      rw [delete_item_ok_state s i s' m hres]
      exact ih
  | createProduct p =>
    simp only [applyOp]
    by_cases hv : p.valid
    · simp only [hv, if_true]
      cases hres : create_mrv_master_product s p with
      | error e => exact ih
      | ok v =>
        obtain ⟨s', r⟩ := v
        obtain ⟨hfk, hs'⟩ := create_mrv_ok_state s p s' r hres
        show refIntegrity s' = true
        rw [hs']
        exact refIntegrity_append_row s p ih hfk
    · simp only [Bool.not_eq_true] at hv
      simp only [hv, Bool.false_eq_true, if_false]
      exact ih
  | updateProduct i p =>
    simp only [applyOp]
    by_cases hv : p.valid
    · simp only [hv, if_true]
      cases hres : update_mrv_master_product s i p with
      | error e => exact ih
      | ok v =>
        obtain ⟨s', r⟩ := v
        obtain ⟨hfk, hs'⟩ := update_mrv_ok_state s i p s' r hres
        show refIntegrity s' = true
        rw [hs']
        exact refIntegrity_map_row s p i ih hfk
    · simp only [Bool.not_eq_true] at hv
      simp only [hv, Bool.false_eq_true, if_false]
      exact ih
  | deleteProduct i =>
    simp only [applyOp]
    cases hres : delete_mrv_master_product s i with
    | error e => exact ih
    | ok v =>
      obtain ⟨s', m⟩ := v
      show refIntegrity s' = true
      rw [delete_mrv_ok_state s i s' m hres]
      unfold refIntegrity at ih ⊢
      exact all_filter_of_all s.masterProducts _ _ ih
  | createDesc d =>
    simp only [applyOp]
    by_cases hv : d.valid
    · simp only [hv, if_true]
      cases hres : create_product_description s d with
      | error e => exact ih
      | ok v =>
        obtain ⟨s', r⟩ := v
        show refIntegrity s' = true
        rw [create_desc_ok_state s d s' r hres]
        exact refIntegrity_append_desc s ⟨d.id, d.product_description⟩ ih
    · simp only [Bool.not_eq_true] at hv
      simp only [hv, Bool.false_eq_true, if_false]
      exact ih
  | updateDesc i d =>
    simp only [applyOp]
    by_cases hv : d.valid
    · simp only [hv, if_true]
      cases hres : update_product_description s i d with
      | error e => exact ih
      | ok v =>
        obtain ⟨s', r⟩ := v
        show refIntegrity s' = true
        rw [update_desc_ok_state s i d s' r hres]
        exact refIntegrity_update_desc s i d.product_description ih
    · simp only [Bool.not_eq_true] at hv
      simp only [hv, Bool.false_eq_true, if_false]
      exact ih
  | deleteDesc i =>
    simp only [applyOp]
    cases hres : delete_product_description s i with
    | error e => exact ih
    | ok v =>
      obtain ⟨s', m⟩ := v
      obtain ⟨hdep, hs'⟩ := delete_desc_ok_state s i s' m hres
      show refIntegrity s' = true
      rw [hs']
      exact refIntegrity_delete_desc s i ih hdep

/-- C3 (counterexample): the invariant exactly as the spec words it —
every NON-NULL stored foreign key resolves — does not hold of every
reachable state: one create request with `prod_typ_key = 0` (accepted,
the truthiness-guarded check skips zero) reaches a state storing a
non-null `ProdTypKey` of `0` while the `ProductTypes` table is empty. -/
theorem C3_counterexample :
    refIntegrityLiteral baseDB = true ∧
    Reachable (applyOp baseDB (Op.createProduct zeroKeyPayload)) ∧
    refIntegrityLiteral (applyOp baseDB (Op.createProduct zeroKeyPayload)) = false :=
  ⟨by decide,
   Reachable.step baseDB (Op.createProduct zeroKeyPayload)
     (Reachable.init baseDB (by decide)),
   by decide⟩

/-- C3 (amended): every reachable state satisfies the CHECKED
referential-integrity invariant: every non-null, NONZERO stored foreign
key on a master-product row resolves to a row of its lookup table (zero,
which Python truthiness treats as absent, is exempt, as are nulls), and
in particular no operation deletes a lookup row out from under a
referencing master product. -/
theorem C3_reachable_integrity (s : DB) (h : Reachable s) : refIntegrity s = true := by
  induction h with
  | init t ht => exact ht
  | step t op ht ih => exact refIntegrity_applyOp t op ih

/-- C3 witness: a concrete two-step reachable state satisfies the checked
invariant. -/
theorem C3_witness :
    refIntegrity (applyOp baseDB (Op.createProduct zeroKeyPayload)) = true :=
  C3_reachable_integrity (applyOp baseDB (Op.createProduct zeroKeyPayload))
    (Reachable.step baseDB (Op.createProduct zeroKeyPayload)
      (Reachable.init baseDB (by decide)))

end MRVEvo
